import Mathlib

/-!
Shallow embedding of `src/llmperf/ray_clients/bedrock_chat_completions_client.py`
(`BedrockClient.llm_request`).

Modelling conventions:
* Python `time.monotonic()` values are rationals (`ℚ`); every call to the clock
  inside one loop iteration happens at that event's arrival time, and the final
  elapsed-time reading happens at `endTime`.
* Python dictionaries with string keys and arbitrary values are association
  lists in insertion order (`PyDict`).  The code only copies values and tests
  their truthiness, so values are a small `PyVal` type with an opaque-object
  constructor carrying its truthiness.
* Exceptions are `Except PyError`; the `try`/`except` of the source is modelled
  by the `caught` flag of `EngineState`; a `PyError` escaping `llm_request`
  models an uncaught Python exception propagating to the caller.
* The AWS credential checks (lines 37-42) and the boto3 client construction are
  outside the spec's scope (external collaborators) and are not modelled.
* The remote call is opaque: the streaming path receives the list of events the
  provider delivered (with `interrupted = true` when the iterator raised after
  delivering them), the non-streaming path receives `Option BlockingResponse`
  (`none` when the blocking call raised).
-/

namespace Bedrock

/-- Python values as far as `llm_request` inspects them: it only copies them,
compares dictionary keys, and tests truthiness.  `vObj tag truthy` stands for
any other object (dict, list, ...) together with its Python truthiness. -/
inductive PyVal where
  | vNone
  | vBool (b : Bool)
  | vInt (n : Int)
  | vStr (s : String)
  | vObj (tag : String) (truthy : Bool)
deriving DecidableEq, Repr

/-- Python truthiness of a `PyVal`. -/
def PyVal.truthy : PyVal → Bool
  | .vNone => false
  | .vBool b => b
  | .vInt n => n != 0
  | .vStr s => s != ""
  | .vObj _ t => t

/-- A Python `Dict[str, Any]` in insertion order. -/
abbrev PyDict := List (String × PyVal)

/-- `k in d`. -/
def dictContains (d : PyDict) (k : String) : Bool :=
  d.any (fun e => e.1 == k)

/-- `d[k]` with a default (all uses in the source are guarded by `in`). -/
def dictGetD (d : PyDict) (k : String) (v0 : PyVal) : PyVal :=
  match d.find? (fun e => e.1 == k) with
  | some e => e.2
  | none => v0

/-- `d[k] = v`: update the entry in place when the key is present (Python keeps
its position), append it otherwise. -/
def dictSet (d : PyDict) (k : String) (v : PyVal) : PyDict :=
  if dictContains d k then d.map (fun e => if e.1 == k then (e.1, v) else e)
  else d ++ [(k, v)]

/-- `del d[k]`. -/
def dictDel (d : PyDict) (k : String) : PyDict :=
  d.filter (fun e => e.1 != k)

/-- The `RequestConfig` fields `llm_request` reads: `prompt` (text and
precomputed length), `model`, `sampling_params`, `additional_request_body`. -/
structure RequestConfig where
  prompt : String
  prompt_len : Nat
  model : String
  sampling_params : PyDict
  additional_request_body : Option PyDict
deriving DecidableEq, Repr

/-- Python exceptions that the modelled code can raise. -/
inductive PyError where
  | keyError (key : String)
  | nameError (missing : String)
deriving DecidableEq, Repr

/-- The `api_inputs` dictionary (the CallArguments): optional keys are `Option`
fields, `none` meaning the key is absent.  `system` holds the one-element
`[{"text": system}]` list built by the source. -/
structure ApiInputs where
  modelId : String
  messages : List (String × String)
  inferenceConfig : Option PyDict
  system : Option (List PyVal)
  additionalModelRequestFields : Option PyVal
  additionalModelResponseFieldPaths : Option PyVal
  toolConfig : Option PyVal
deriving DecidableEq, Repr

/-- Lines 57-59: `if inference_config and "max_tokens" in inference_config:`
rename `max_tokens` to `maxTokens` in place. -/
def renameMaxTokens (d : PyDict) : PyDict :=
  if !d.isEmpty && dictContains d "max_tokens" then
    dictDel (dictSet d "maxTokens" (dictGetD d "max_tokens" PyVal.vNone)) "max_tokens"
  else d

/-- Lines 61-65: `if inference_config and "stream" in inference_config:`
remove the `stream` key in place; the second component is the truthiness of
the extracted value (`stream_model`), `False` when the key is absent. -/
def extractStream (d : PyDict) : PyDict × Bool :=
  if !d.isEmpty && dictContains d "stream" then
    (dictDel d "stream", (dictGetD d "stream" PyVal.vNone).truthy)
  else (d, false)

/-- Lines 55-65: `inference_config = request_config.sampling_params` (an alias,
not a copy), the in-place `max_tokens` → `maxTokens` rename, and the in-place
extraction of the `stream` flag.  Returns the dictionary as mutated and the
truthiness of the extracted `stream` value. -/
def normalizeSampling (d : PyDict) : PyDict × Bool :=
  extractStream (renameMaxTokens d)

/-- Lines 68-107: assembling `api_inputs` from the (already mutated) inference
config and `additional_request_body`.  Line 107 of the source writes
`api_inputs["toolConfig"] = tool_config` where the defined local variable is
`toolConfig`, so a truthy `toolConfig` value raises `NameError`. -/
def mkApiInputs (modelId promptText : String) (ic : PyDict) (arb : Option PyDict) :
    Except PyError ApiInputs :=
  let base : ApiInputs :=
    { modelId := modelId
      messages := [("user", promptText)]
      inferenceConfig := if !ic.isEmpty then some ic else none
      system := none
      additionalModelRequestFields := none
      additionalModelResponseFieldPaths := none
      toolConfig := none }
  match arb with
  | none => Except.ok base
  | some body =>
      let sysVal := dictGetD body "system" (PyVal.vStr "")
      let addReqFields := dictGetD body "additionalModelRequestFields" (PyVal.vStr "")
      let addRespPaths := dictGetD body "additionalModelResponseFieldPaths" (PyVal.vStr "")
      let toolCfg := dictGetD body "toolConfig" (PyVal.vStr "")
      let base := if sysVal.truthy then { base with system := some [sysVal] } else base
      let base :=
        if addReqFields.truthy then { base with additionalModelRequestFields := some addReqFields }
        else base
      let base :=
        if addRespPaths.truthy then
          { base with additionalModelResponseFieldPaths := some addRespPaths }
        else base
      if toolCfg.truthy then Except.error (PyError.nameError "tool_config")
      else Except.ok base

/-- The Request Builder (lines 44-107): produces the call arguments and the
stream directive, together with the request config as it stands afterwards
(its `sampling_params` was mutated in place, so the second component records
that mutation even when building fails). -/
def buildRequest (rc : RequestConfig) : Except PyError (ApiInputs × Bool) × RequestConfig :=
  let p := normalizeSampling rc.sampling_params
  let rcAfter : RequestConfig := { rc with sampling_params := p.1 }
  match mkApiInputs rc.model rc.prompt p.1 rc.additional_request_body with
  | Except.error e => (Except.error e, rcAfter)
  | Except.ok api => (Except.ok (api, p.2), rcAfter)

/-- The provider's usage accounting; a missing field is a missing dictionary
key (reading it raises `KeyError`).  `Usage.empty` models the initial `{}`. -/
structure Usage where
  inputTokens : Option Nat
  outputTokens : Option Nat
  totalTokens : Option Nat
deriving DecidableEq, Repr

/-- `usage = {}`. -/
def Usage.empty : Usage := ⟨none, none, none⟩

/-- A `metadata` stream event: optional `usage` and `metrics` sub-fields (the
latter opaque: the source stores it and never reads it). -/
structure MetadataEvent where
  usage : Option Usage
  metrics : Option String
deriving DecidableEq, Repr

/-- One event of the `converse_stream` event sequence.  The source tests each
of the four keys with an independent `if`, so an event may carry any subset of
them; each present key holds that variant's payload. -/
structure StreamEvent where
  messageStart : Option String
  contentBlockDelta : Option String
  messageStop : Option String
  metadata : Option MetadataEvent
deriving DecidableEq, Repr

/-- A stream event together with its arrival time on the monotonic clock. -/
structure TimedEvent where
  time : ℚ
  event : StreamEvent
deriving DecidableEq, Repr

/-- The mutable locals of the event loop (lines 110-129):
`role`, `generated_text`, `message_stop`, `usage`, `metrics`,
`time_to_next_token`, `ttft`, `most_recent_received_token_time`. -/
structure LoopState where
  role : String
  generated_text : String
  message_stop : String
  usage : Usage
  metricsData : String
  time_to_next_token : List ℚ
  ttft : ℚ
  most_recent_received_token_time : ℚ
deriving DecidableEq, Repr

/-- Locals as initialised before the `try` block; the second `time.monotonic()`
call (line 129) is modelled as equal to `startTime`. -/
def initState (startTime : ℚ) : LoopState :=
  { role := ""
    generated_text := ""
    message_stop := ""
    usage := Usage.empty
    metricsData := ""
    time_to_next_token := []
    ttft := 0
    most_recent_received_token_time := startTime }

/-- Lines 136-137: `if 'messageStart' in event`. -/
def applyStart (e : TimedEvent) (s : LoopState) : LoopState :=
  match e.event.messageStart with
  | some r => { s with role := r }
  | none => s

/-- Lines 139-150: `if 'contentBlockDelta' in event`.  `if not ttft:` is
Python truthiness, i.e. the test `ttft = 0`. -/
def applyDelta (startTime : ℚ) (e : TimedEvent) (s : LoopState) : LoopState :=
  match e.event.contentBlockDelta with
  | some txt =>
      let s' :=
        if s.ttft = 0 then
          { s with ttft := e.time - startTime
                   time_to_next_token := s.time_to_next_token ++ [e.time - startTime] }
        else
          { s with time_to_next_token :=
                     s.time_to_next_token ++ [e.time - s.most_recent_received_token_time] }
      { s' with most_recent_received_token_time := e.time
                generated_text := s'.generated_text ++ txt }
  | none => s

/-- Lines 152-153: `if 'messageStop' in event`. -/
def applyStop (e : TimedEvent) (s : LoopState) : LoopState :=
  match e.event.messageStop with
  | some reason => { s with message_stop := reason }
  | none => s

/-- Lines 155-161: `if 'metadata' in event`. -/
def applyMeta (e : TimedEvent) (s : LoopState) : LoopState :=
  match e.event.metadata with
  | some md =>
      let s1 :=
        match md.usage with
        | some u => { s with usage := u }
        | none => s
      match md.metrics with
      | some m => { s1 with metricsData := m }
      | none => s1
  | none => s

/-- One iteration of the `for event in stream` loop: the four key tests are
independent `if` statements executed in source order. -/
def processEvent (startTime : ℚ) (s : LoopState) (e : TimedEvent) : LoopState :=
  applyMeta e (applyStop e (applyDelta startTime e (applyStart e s)))

/-- The whole `for event in stream` loop over the delivered events. -/
def runLoop (startTime : ℚ) (events : List TimedEvent) (s : LoopState) : LoopState :=
  events.foldl (processEvent startTime) s

/-- State when control leaves the `try`/`except` statement: the loop locals,
the three post-loop locals (`tokens_received`, `total_request_time`,
`output_throughput`, all initialised to `0`), and whether the `except` branch
ran. -/
structure EngineState where
  loop : LoopState
  tokens_received : Nat
  total_request_time : ℚ
  output_throughput : ℚ
  caught : Bool
deriving DecidableEq, Repr

/-- Lines 177-179, still inside the `try`:
`tokens_received = usage["outputTokens"]` (KeyError when absent),
`total_request_time = time.monotonic() - start_time`, then
`output_throughput = tokens_received / total_request_time`
(ZeroDivisionError when the elapsed time is zero).  Each raise is caught by the
`except` clause, leaving the locals assigned so far. -/
def postLoop (startTime endTime : ℚ) (ls : LoopState) : EngineState :=
  match ls.usage.outputTokens with
  | none =>
      { loop := ls, tokens_received := 0, total_request_time := 0
        output_throughput := 0, caught := true }
  | some tok =>
      let total := endTime - startTime
      if total = 0 then
        { loop := ls, tokens_received := tok, total_request_time := total
          output_throughput := 0, caught := true }
      else
        { loop := ls, tokens_received := tok, total_request_time := total
          output_throughput := (tok : ℚ) / total, caught := false }

/-- The streaming arm of the `try` block (lines 132-161 plus 177-179).
`interrupted = true` means the event iterator raised after delivering
`events` (or the `converse_stream` call itself raised, with `events = []`):
the loop state accumulated so far is kept and control jumps to `except`. -/
def runStreamTry (startTime endTime : ℚ) (events : List TimedEvent) (interrupted : Bool) :
    EngineState :=
  let ls := runLoop startTime events (initState startTime)
  if interrupted then
    { loop := ls, tokens_received := 0, total_request_time := 0
      output_throughput := 0, caught := true }
  else postLoop startTime endTime ls

/-- The single blocking `converse` response as the source reads it:
`output.message.role`, `output.message.content[0].text`, `stopReason`,
`usage`, `metrics`. -/
structure BlockingResponse where
  role : String
  text : String
  stopReason : String
  usage : Usage
  metricsData : String
deriving DecidableEq, Repr

/-- The non-streaming arm of the `try` block (lines 162-179).  `none` models
the blocking call raising (caught, locals untouched). -/
def runConverseTry (startTime endTime : ℚ) (resp : Option BlockingResponse) : EngineState :=
  match resp with
  | none =>
      { loop := initState startTime, tokens_received := 0, total_request_time := 0
        output_throughput := 0, caught := true }
  | some r =>
      let ls :=
        { initState startTime with
          time_to_next_token := ([] : List ℚ)
          ttft := (0 : ℚ)
          role := r.role
          generated_text := r.text
          message_stop := r.stopReason
          usage := r.usage
          metricsData := r.metricsData }
      postLoop startTime endTime ls

/-- The returned `benchmark_metrics` dictionary. -/
structure BenchmarkMetrics where
  error_code : Option Nat
  error_msg : String
  inter_token_lat : ℚ
  ttft : ℚ
  e2e_lat : ℚ
  req_output_throughput : ℚ
  num_total_tokens : Nat
  num_output_tokens : Nat
  num_input_tokens : Nat
deriving DecidableEq, Repr

/-- The local `error_msg` (line 124): initialised to `""` and never assigned
again, in particular never from the caught exception. -/
def caught_error_msg : String := ""

/-- The local `error_response_code` (line 123): initialised to `None` and never
assigned again. -/
def caught_error_code : Option Nat := none

/-- Lines 181-195: the `except` clause writes `error_msg` and
`error_response_code` into the record, then (on both paths) the final metric
fields are assembled; the three `usage[...]` reads on lines 191-193 are outside
the `try` and raise `KeyError` to the caller when the key is absent. -/
def finishMetrics (es : EngineState) (rc : RequestConfig) :
    Except PyError (BenchmarkMetrics × String × RequestConfig) :=
  let errMsg := if es.caught then caught_error_msg else ""
  let errCode := if es.caught then caught_error_code else none
  match es.loop.usage.totalTokens with
  | none => Except.error (PyError.keyError "totalTokens")
  | some tot =>
      match es.loop.usage.outputTokens with
      | none => Except.error (PyError.keyError "outputTokens")
      | some outT =>
          match es.loop.usage.inputTokens with
          | none => Except.error (PyError.keyError "inputTokens")
          | some inT =>
              Except.ok
                ({ error_code := errCode
                   error_msg := errMsg
                   inter_token_lat := es.loop.time_to_next_token.sum
                   ttft := es.loop.ttft
                   e2e_lat := es.total_request_time
                   req_output_throughput := es.output_throughput
                   num_total_tokens := tot
                   num_output_tokens := outT
                   num_input_tokens := inT },
                 es.loop.generated_text, rc)

/-- `BedrockClient.llm_request` (lines 36-195), parameterised by the opaque
remote call's behaviour: the event stream (with its interruption flag) for the
streaming path and the optional blocking response for the non-streaming path.
The returned request config is the caller's object as it stands after the
in-place mutation of `sampling_params`. -/
def llm_request (rc : RequestConfig) (startTime endTime : ℚ)
    (events : List TimedEvent) (interrupted : Bool) (resp : Option BlockingResponse) :
    Except PyError (BenchmarkMetrics × String × RequestConfig) :=
  match buildRequest rc with
  | (Except.error e, _) => Except.error e
  | (Except.ok (_, streamModel), rcAfter) =>
      let es :=
        if streamModel then runStreamTry startTime endTime events interrupted
        else runConverseTry startTime endTime resp
      finishMetrics es rcAfter

/-- An event carrying only a `contentBlockDelta` with the given text. -/
def deltaEvent (txt : String) : StreamEvent :=
  { messageStart := none, contentBlockDelta := some txt, messageStop := none, metadata := none }

/-- An event carrying only a `metadata` block with the given usage. -/
def metadataEvent (u : Usage) : StreamEvent :=
  { messageStart := none, contentBlockDelta := none, messageStop := none
    metadata := some { usage := some u, metrics := none } }

/-- The texts of the `contentBlockDelta` events, in arrival order. -/
def deltaTexts (events : List TimedEvent) : List String :=
  events.filterMap (fun e => e.event.contentBlockDelta)

/-- Concatenation of a list of strings in order. -/
def concatTexts : List String → String
  | [] => ""
  | t :: ts => t ++ concatTexts ts

end Bedrock

namespace Bedrock

/-! ### Field-preservation lemmas for the four event-loop stages -/

theorem applyStart_generated_text (e : TimedEvent) (s : LoopState) :
    (applyStart e s).generated_text = s.generated_text := by
  cases h : e.event.messageStart <;> simp [applyStart, h]

theorem applyStart_ttft (e : TimedEvent) (s : LoopState) :
    (applyStart e s).ttft = s.ttft := by
  cases h : e.event.messageStart <;> simp [applyStart, h]

theorem applyStart_gaps (e : TimedEvent) (s : LoopState) :
    (applyStart e s).time_to_next_token = s.time_to_next_token := by
  cases h : e.event.messageStart <;> simp [applyStart, h]

theorem applyStart_mrt (e : TimedEvent) (s : LoopState) :
    (applyStart e s).most_recent_received_token_time = s.most_recent_received_token_time := by
  cases h : e.event.messageStart <;> simp [applyStart, h]

theorem applyStart_stop (e : TimedEvent) (s : LoopState) :
    (applyStart e s).message_stop = s.message_stop := by
  cases h : e.event.messageStart <;> simp [applyStart, h]

theorem applyStart_delta_key (e : TimedEvent) (s : LoopState) :
    (applyStart e s) = s ∨ (applyStart e s) = { s with role := (applyStart e s).role } := by
  cases h : e.event.messageStart <;> simp [applyStart, h]

theorem applyStop_generated_text (e : TimedEvent) (s : LoopState) :
    (applyStop e s).generated_text = s.generated_text := by
  cases h : e.event.messageStop <;> simp [applyStop, h]

theorem applyStop_ttft (e : TimedEvent) (s : LoopState) :
    (applyStop e s).ttft = s.ttft := by
  cases h : e.event.messageStop <;> simp [applyStop, h]

theorem applyStop_gaps (e : TimedEvent) (s : LoopState) :
    (applyStop e s).time_to_next_token = s.time_to_next_token := by
  cases h : e.event.messageStop <;> simp [applyStop, h]

theorem applyStop_sets (e : TimedEvent) (s : LoopState) (reason : String)
    (h : e.event.messageStop = some reason) :
    (applyStop e s).message_stop = reason := by
  simp [applyStop, h]

theorem applyMeta_generated_text (e : TimedEvent) (s : LoopState) :
    (applyMeta e s).generated_text = s.generated_text := by
  cases h : e.event.metadata with
  | none => simp [applyMeta, h]
  | some md => cases hu : md.usage <;> cases hm : md.metrics <;> simp [applyMeta, h, hu, hm]

theorem applyMeta_ttft (e : TimedEvent) (s : LoopState) :
    (applyMeta e s).ttft = s.ttft := by
  cases h : e.event.metadata with
  | none => simp [applyMeta, h]
  | some md => cases hu : md.usage <;> cases hm : md.metrics <;> simp [applyMeta, h, hu, hm]

theorem applyMeta_gaps (e : TimedEvent) (s : LoopState) :
    (applyMeta e s).time_to_next_token = s.time_to_next_token := by
  cases h : e.event.metadata with
  | none => simp [applyMeta, h]
  | some md => cases hu : md.usage <;> cases hm : md.metrics <;> simp [applyMeta, h, hu, hm]

theorem applyMeta_stop (e : TimedEvent) (s : LoopState) :
    (applyMeta e s).message_stop = s.message_stop := by
  cases h : e.event.metadata with
  | none => simp [applyMeta, h]
  | some md => cases hu : md.usage <;> cases hm : md.metrics <;> simp [applyMeta, h, hu, hm]

/-! ### Behaviour of the `contentBlockDelta` stage -/

theorem applyDelta_none (startTime : ℚ) (e : TimedEvent) (s : LoopState)
    (h : e.event.contentBlockDelta = none) :
    applyDelta startTime e s = s := by
  simp [applyDelta, h]

theorem applyDelta_generated_text (startTime : ℚ) (e : TimedEvent) (s : LoopState) (txt : String)
    (h : e.event.contentBlockDelta = some txt) :
    (applyDelta startTime e s).generated_text = s.generated_text ++ txt := by
  simp only [applyDelta, h]
  split <;> rfl

theorem applyDelta_gaps_len (startTime : ℚ) (e : TimedEvent) (s : LoopState) (txt : String)
    (h : e.event.contentBlockDelta = some txt) :
    (applyDelta startTime e s).time_to_next_token.length = s.time_to_next_token.length + 1 := by
  simp only [applyDelta, h]
  split <;> simp

theorem applyDelta_stop (startTime : ℚ) (e : TimedEvent) (s : LoopState) :
    (applyDelta startTime e s).message_stop = s.message_stop := by
  cases h : e.event.contentBlockDelta with
  | none => simp [applyDelta, h]
  | some txt =>
      simp only [applyDelta, h]
      split <;> rfl

theorem applyDelta_ttft_ne (startTime : ℚ) (e : TimedEvent) (s : LoopState)
    (h : s.ttft ≠ 0) :
    (applyDelta startTime e s).ttft = s.ttft := by
  cases hd : e.event.contentBlockDelta with
  | none => simp [applyDelta, hd]
  | some txt => simp [applyDelta, hd, if_neg h]

theorem applyDelta_ttft_sets (startTime : ℚ) (e : TimedEvent) (s : LoopState) (txt : String)
    (hd : e.event.contentBlockDelta = some txt) (h0 : s.ttft = 0) :
    (applyDelta startTime e s).ttft = e.time - startTime := by
  simp [applyDelta, hd, if_pos h0]

/-! ### Behaviour of one whole loop iteration -/

theorem processEvent_generated_text_some (startTime : ℚ) (s : LoopState) (e : TimedEvent)
    (txt : String) (hd : e.event.contentBlockDelta = some txt) :
    (processEvent startTime s e).generated_text = s.generated_text ++ txt := by
  unfold processEvent
  rw [applyMeta_generated_text, applyStop_generated_text,
    applyDelta_generated_text startTime e _ txt hd, applyStart_generated_text]

theorem processEvent_generated_text_none (startTime : ℚ) (s : LoopState) (e : TimedEvent)
    (hd : e.event.contentBlockDelta = none) :
    (processEvent startTime s e).generated_text = s.generated_text := by
  unfold processEvent
  rw [applyMeta_generated_text, applyStop_generated_text, applyDelta_none startTime e _ hd,
    applyStart_generated_text]

theorem processEvent_ttft_ne (startTime : ℚ) (s : LoopState) (e : TimedEvent)
    (h : s.ttft ≠ 0) :
    (processEvent startTime s e).ttft = s.ttft := by
  unfold processEvent
  rw [applyMeta_ttft, applyStop_ttft, applyDelta_ttft_ne, applyStart_ttft]
  rw [applyStart_ttft]
  exact h

theorem processEvent_ttft_none (startTime : ℚ) (s : LoopState) (e : TimedEvent)
    (hd : e.event.contentBlockDelta = none) :
    (processEvent startTime s e).ttft = s.ttft := by
  unfold processEvent
  rw [applyMeta_ttft, applyStop_ttft, applyDelta_none startTime e _ hd, applyStart_ttft]

theorem processEvent_ttft_sets (startTime : ℚ) (s : LoopState) (e : TimedEvent) (txt : String)
    (hd : e.event.contentBlockDelta = some txt) (h0 : s.ttft = 0) :
    (processEvent startTime s e).ttft = e.time - startTime := by
  unfold processEvent
  rw [applyMeta_ttft, applyStop_ttft, applyDelta_ttft_sets startTime e _ txt hd]
  rw [applyStart_ttft]
  exact h0

theorem processEvent_stop_sets (startTime : ℚ) (s : LoopState) (e : TimedEvent) (reason : String)
    (hs : e.event.messageStop = some reason) :
    (processEvent startTime s e).message_stop = reason := by
  unfold processEvent
  rw [applyMeta_stop, applyStop_sets _ _ reason hs]

theorem processEvent_gaps_len_some (startTime : ℚ) (s : LoopState) (e : TimedEvent)
    (txt : String) (hd : e.event.contentBlockDelta = some txt) :
    (processEvent startTime s e).time_to_next_token.length
      = s.time_to_next_token.length + 1 := by
  unfold processEvent
  rw [applyMeta_gaps, applyStop_gaps, applyDelta_gaps_len startTime e _ txt hd, applyStart_gaps]

/-! ### Loop-level lemmas -/

theorem runLoop_nil (startTime : ℚ) (s : LoopState) : runLoop startTime [] s = s := rfl

theorem runLoop_cons (startTime : ℚ) (e : TimedEvent) (events : List TimedEvent) (s : LoopState) :
    runLoop startTime (e :: events) s = runLoop startTime events (processEvent startTime s e) :=
  rfl

theorem runLoop_append (startTime : ℚ) (l1 l2 : List TimedEvent) (s : LoopState) :
    runLoop startTime (l1 ++ l2) s = runLoop startTime l2 (runLoop startTime l1 s) :=
  List.foldl_append _ _ _ _

theorem runLoop_ttft_ne (startTime : ℚ) (events : List TimedEvent) (s : LoopState)
    (h : s.ttft ≠ 0) :
    (runLoop startTime events s).ttft = s.ttft := by
  induction events generalizing s with
  | nil => rfl
  | cons e tl ih =>
      rw [runLoop_cons]
      rw [ih _ (by rw [processEvent_ttft_ne startTime s e h]; exact h)]
      exact processEvent_ttft_ne startTime s e h

theorem runLoop_ttft_noDelta (startTime : ℚ) (events : List TimedEvent) (s : LoopState)
    (h : ∀ e ∈ events, e.event.contentBlockDelta = none) :
    (runLoop startTime events s).ttft = s.ttft := by
  induction events generalizing s with
  | nil => rfl
  | cons e tl ih =>
      rw [runLoop_cons]
      rw [ih _ (fun x hx => h x (List.mem_cons_of_mem e hx))]
      exact processEvent_ttft_none startTime s e (h e (List.mem_cons_self e tl))

theorem runLoop_generated_text (startTime : ℚ) (events : List TimedEvent) (s : LoopState) :
    (runLoop startTime events s).generated_text
      = s.generated_text ++ concatTexts (deltaTexts events) := by
  induction events generalizing s with
  | nil => simp [runLoop_nil, deltaTexts, concatTexts, String.append_empty]
  | cons e tl ih =>
      rw [runLoop_cons, ih]
      cases hd : e.event.contentBlockDelta with
      | none =>
          rw [processEvent_generated_text_none startTime s e hd]
          simp [deltaTexts, List.filterMap_cons, hd]
      | some txt =>
          rw [processEvent_generated_text_some startTime s e txt hd]
          simp only [deltaTexts, List.filterMap_cons, hd, concatTexts]
          rw [String.append_assoc]

end Bedrock

namespace Bedrock

/-! ### Dictionary lemmas -/

theorem nonEmpty_and_contains (d : PyDict) (k : String) :
    (!d.isEmpty && dictContains d k) = dictContains d k := by
  cases d <;> simp [dictContains]

theorem dictContains_del_self (d : PyDict) (k : String) :
    dictContains (dictDel d k) k = false := by
  simp only [dictContains, dictDel, List.any_eq_false]
  intro e he
  have h := List.of_mem_filter he
  simpa using h

theorem dictContains_del_other (d : PyDict) (k k' : String)
    (h : dictContains d k = false) : dictContains (dictDel d k') k = false := by
  simp only [dictContains, List.any_eq_false] at h ⊢
  intro e he
  exact h e (List.mem_of_mem_filter he)

theorem dictContains_set_other (d : PyDict) (k k' : String) (v : PyVal)
    (hkk : (k' == k) = false) (h : dictContains d k = false) :
    dictContains (dictSet d k' v) k = false := by
  unfold dictSet
  split
  · rw [dictContains, List.any_map]
    have he : ((fun e => e.1 == k) ∘ fun (e : String × PyVal) =>
        if e.1 == k' then (e.1, v) else e) = fun e => e.1 == k := by
      funext e
      by_cases hc : e.1 = k' <;> simp [hc]
    rw [he]
    exact h
  · simp only [dictContains, List.any_append, List.any_cons, List.any_nil] at h ⊢
    simp [h, hkk]

theorem renameMaxTokens_no_max (d : PyDict) :
    dictContains (renameMaxTokens d) "max_tokens" = false := by
  unfold renameMaxTokens
  rw [nonEmpty_and_contains]
  cases hc : dictContains d "max_tokens"
  · simpa using hc
  · simpa using dictContains_del_self (dictSet d "maxTokens" (dictGetD d "max_tokens" PyVal.vNone)) "max_tokens"

theorem normalizeSampling_fst_no_max (d : PyDict) :
    dictContains (normalizeSampling d).1 "max_tokens" = false := by
  unfold normalizeSampling extractStream
  rw [nonEmpty_and_contains]
  cases hc : dictContains (renameMaxTokens d) "stream"
  · simpa using renameMaxTokens_no_max d
  · simpa using dictContains_del_other (renameMaxTokens d) "max_tokens" "stream"
      (renameMaxTokens_no_max d)

theorem normalizeSampling_fst_no_stream (d : PyDict) :
    dictContains (normalizeSampling d).1 "stream" = false := by
  unfold normalizeSampling extractStream
  rw [nonEmpty_and_contains]
  cases hc : dictContains (renameMaxTokens d) "stream"
  · simpa using hc
  · simpa using dictContains_del_self (renameMaxTokens d) "stream"

theorem normalizeSampling_of_clean (d : PyDict)
    (h1 : dictContains d "max_tokens" = false) (h2 : dictContains d "stream" = false) :
    normalizeSampling d = (d, false) := by
  have hr : renameMaxTokens d = d := by
    unfold renameMaxTokens
    rw [nonEmpty_and_contains, h1]
    rfl
  unfold normalizeSampling
  rw [hr]
  unfold extractStream
  rw [nonEmpty_and_contains, h2]
  rfl

theorem normalizeSampling_normalized (d : PyDict) :
    normalizeSampling (normalizeSampling d).1 = ((normalizeSampling d).1, false) :=
  normalizeSampling_of_clean _ (normalizeSampling_fst_no_max d)
    (normalizeSampling_fst_no_stream d)

/-! ### Engine extraction lemmas -/

theorem postLoop_loop (st et : ℚ) (ls : LoopState) : (postLoop st et ls).loop = ls := by
  unfold postLoop
  cases h : ls.usage.outputTokens with
  | none => rfl
  | some tok =>
      dsimp only
      split <;> rfl

theorem runStreamTry_loop (st et : ℚ) (events : List TimedEvent) (b : Bool) :
    (runStreamTry st et events b).loop = runLoop st events (initState st) := by
  unfold runStreamTry
  cases b <;> simp [postLoop_loop]

theorem finishMetrics_text (es : EngineState) (rc : RequestConfig) (bm : BenchmarkMetrics)
    (g : String) (rcOut : RequestConfig)
    (h : finishMetrics es rc = Except.ok (bm, g, rcOut)) :
    g = es.loop.generated_text := by
  unfold finishMetrics at h
  rcases htot : es.loop.usage.totalTokens with _ | tot <;> rw [htot] at h
  · simp at h
  rcases hout : es.loop.usage.outputTokens with _ | outT <;> rw [hout] at h
  · simp at h
  rcases hin : es.loop.usage.inputTokens with _ | inT <;> rw [hin] at h
  · simp at h
  simp only [Except.ok.injEq, Prod.mk.injEq] at h
  exact h.2.1.symm

end Bedrock

namespace Bedrock

/-! ### Concrete inputs used by the claim theorems -/

/-- A streaming request: `sampling_params = {"stream": True}`. -/
def rcStream : RequestConfig :=
  { prompt := "p", prompt_len := 1, model := "m"
    sampling_params := [("stream", PyVal.vBool true)]
    additional_request_body := none }

/-- `rcStream` as it stands after `llm_request` mutated its `sampling_params`. -/
def rcStreamAfter : RequestConfig :=
  { prompt := "p", prompt_len := 1, model := "m"
    sampling_params := []
    additional_request_body := none }

/-- A request with empty `sampling_params` (non-streaming path). -/
def rcPlain : RequestConfig :=
  { prompt := "p", prompt_len := 1, model := "m"
    sampling_params := []
    additional_request_body := none }

/-- The call arguments built from `rcStream` or `rcPlain`. -/
def apiPlain : ApiInputs :=
  { modelId := "m", messages := [("user", "p")], inferenceConfig := none, system := none
    additionalModelRequestFields := none, additionalModelResponseFieldPaths := none
    toolConfig := none }

/-- C1: the claim says `llm_request` never propagates a failure and always
returns its `(metrics, text, request)` triple, in particular for a stream that
delivers a MessageStart and some ContentDelta events and then ends with no
Metadata and no MessageStop.  The source violates this: with no usage captured,
`usage["outputTokens"]` on line 177 raises inside the `try` (caught), but the
`usage["totalTokens"]` read on line 191 is outside the `try`/`except`, so the
invocation raises `KeyError` to the caller instead of returning. -/
theorem claim1_interrupted_stream_raises :
    llm_request rcStream 0 1
      [⟨1/10, { messageStart := some "assistant", contentBlockDelta := none,
                messageStop := none, metadata := none }⟩,
       ⟨2/10, deltaEvent "Hello"⟩] false none
      = Except.error (PyError.keyError "totalTokens") := by
  rfl

/-- A stream delivering one metadata event (with full usage), after which the
iterator fails. -/
def eventsMetaOnly : List TimedEvent :=
  [⟨1/10, metadataEvent { inputTokens := some 10, outputTokens := some 20, totalTokens := some 30 }⟩]

/-- C2: the claim says a caught failure populates the error-message and
error-code fields from the failure's description.  The source never assigns the
locals `error_msg`/`error_response_code` (lines 123-124), so after a caught
failure (here: the stream iterator raises after a metadata event) the returned
record still has `error_msg = ""` and `error_code = None`; moreover the three
token counts are the previously captured usage values, not omitted or zeroed. -/
theorem claim2_caught_failure_error_fields_blank :
    (runStreamTry 0 1 eventsMetaOnly true).caught = true ∧
    llm_request rcStream 0 1 eventsMetaOnly true none
      = Except.ok
          ({ error_code := none, error_msg := "", inter_token_lat := 0, ttft := 0,
             e2e_lat := 0, req_output_throughput := 0,
             num_total_tokens := 30, num_output_tokens := 20, num_input_tokens := 10 },
           "", rcStreamAfter) :=
  ⟨rfl, rfl⟩

/-- A request whose sampling parameters carry only `max_tokens`. -/
def rcMaxTokens : RequestConfig :=
  { prompt := "p", prompt_len := 1, model := "m"
    sampling_params := [("max_tokens", PyVal.vInt 100)]
    additional_request_body := none }

/-- C3: the claim says building the call arguments leaves the caller-supplied
`sampling_params` unchanged.  The source aliases the dictionary (line 55) and
renames `max_tokens` to `maxTokens` in place (lines 57-59), so the caller's
object is mutated: after the builder runs it holds `{"maxTokens": 100}` instead
of the original `{"max_tokens": 100}`. -/
theorem claim3_sampling_params_mutated :
    (buildRequest rcMaxTokens).2.sampling_params = [("maxTokens", PyVal.vInt 100)] ∧
    (buildRequest rcMaxTokens).2.sampling_params ≠ rcMaxTokens.sampling_params :=
  ⟨rfl, by decide⟩

/-- Content deltas at elapsed times 1/10, 3/10 and 3/10, followed by the
provider's metadata event. -/
def eventsTimed : List TimedEvent :=
  [⟨1/10, deltaEvent "a"⟩, ⟨3/10, deltaEvent "b"⟩, ⟨3/10, deltaEvent "c"⟩,
   ⟨4/10, metadataEvent { inputTokens := some 5, outputTokens := some 3, totalTokens := some 8 }⟩]

/-- The metrics record `llm_request` returns for `eventsTimed`. -/
def bmTimed : BenchmarkMetrics :=
  { error_code := none, error_msg := "", inter_token_lat := 3/10, ttft := 1/10,
    e2e_lat := 1/2, req_output_throughput := 6,
    num_total_tokens := 8, num_output_tokens := 3, num_input_tokens := 5 }

/-- The event loop's state after consuming `eventsTimed`. -/
theorem runLoop_eventsTimed_eval :
    runLoop 0 eventsTimed (initState 0) =
      { role := "", generated_text := "abc", message_stop := ""
        usage := { inputTokens := some 5, outputTokens := some 3, totalTokens := some 8 }
        metricsData := "", time_to_next_token := [1/10, 1/5, 0], ttft := 1/10
        most_recent_received_token_time := 3/10 } := by
  norm_num [eventsTimed, runLoop, processEvent, applyStart, applyDelta, applyStop, applyMeta,
    initState, deltaEvent, metadataEvent]
  rfl

/-- Full evaluation of the streaming invocation on `eventsTimed`. -/
theorem llm_request_eventsTimed_eval :
    llm_request rcStream 0 (1/2) eventsTimed false none
      = Except.ok (bmTimed, "abc", rcStreamAfter) := by
  have hb1 : buildRequest rcStream = (Except.ok (apiPlain, true), rcStreamAfter) := rfl
  unfold llm_request
  rw [hb1]
  simp only [if_true]
  unfold runStreamTry
  rw [runLoop_eventsTimed_eval]
  simp only [Bool.false_eq_true, if_false]
  unfold postLoop
  norm_num [finishMetrics, caught_error_msg, caught_error_code, bmTimed]

/-- C4: for content deltas arriving at elapsed times 0.1, 0.3 and 0.3, the
engine records time-to-first-token 0.1, inter-arrival gaps [0.1, 0.2, 0.0]
(the first gap the time-to-first-token itself), and an inter-token latency of
0.3 in the returned metrics record. -/
theorem claim4_streaming_timing :
    (runLoop 0 eventsTimed (initState 0)).ttft = 1/10 ∧
    (runLoop 0 eventsTimed (initState 0)).time_to_next_token = [1/10, 2/10, 0] ∧
    llm_request rcStream 0 (1/2) eventsTimed false none
      = Except.ok
          ({ error_code := none, error_msg := "", inter_token_lat := 3/10, ttft := 1/10,
             e2e_lat := 1/2, req_output_throughput := 6,
             num_total_tokens := 8, num_output_tokens := 3, num_input_tokens := 5 },
           "abc", rcStreamAfter) :=
  by
  refine ⟨?_, ?_, llm_request_eventsTimed_eval⟩
  · rw [runLoop_eventsTimed_eval]
  · rw [runLoop_eventsTimed_eval]
    norm_num

/-- C6 (counterexample): the claim says the time-to-first-token is set on the
first content delta and then frozen, for every sequence of delta arrival times
including a first delta at zero elapsed time.  With a first delta at elapsed
time 0 the source's `if not ttft:` test still sees a falsy `ttft`, so a second
delta at elapsed time 1/2 overwrites the value that the first delta had set. -/
theorem claim6_counterexample_zero_elapsed :
    (runLoop 0 [⟨0, deltaEvent "a"⟩] (initState 0)).ttft = 0 ∧
    (runLoop 0 [⟨0, deltaEvent "a"⟩, ⟨1/2, deltaEvent "b"⟩] (initState 0)).ttft = 1/2 ∧
    ((1 : ℚ)/2 ≠ 0) :=
  ⟨by norm_num [runLoop, processEvent, applyStart, applyDelta, applyStop, applyMeta,
      initState, deltaEvent],
   by norm_num [runLoop, processEvent, applyStart, applyDelta, applyStop, applyMeta,
      initState, deltaEvent],
   by norm_num⟩

/-- A request whose `additional_request_body` carries a non-empty `toolConfig`. -/
def rcToolConfig : RequestConfig :=
  { prompt := "p", prompt_len := 1, model := "m", sampling_params := []
    additional_request_body := some [("toolConfig", PyVal.vObj "dict" true)] }

/-- C7: the claim says a non-empty `toolConfig` in `additionalRequestBody` is
copied into the call arguments and the build step completes.  Line 107 of the
source assigns `api_inputs["toolConfig"] = tool_config`, but the local variable
is named `toolConfig`, so the build raises `NameError` — outside the `try`
block, hence straight to the caller — and nothing is copied. -/
theorem claim7_toolConfig_nameError :
    buildRequest rcToolConfig = (Except.error (PyError.nameError "tool_config"), rcToolConfig) ∧
    llm_request rcToolConfig 0 1 [] false none
      = Except.error (PyError.nameError "tool_config") :=
  ⟨rfl, rfl⟩

end Bedrock

namespace Bedrock

/-- C6 (amended): within one streaming invocation, `ttft` stays zero while no
content delta has been observed; the first content delta sets it to the elapsed
time since call start; and provided that elapsed time is nonzero, no later
event changes it.  (A first delta at exactly zero elapsed time is the exception
established by the counterexample: the source's truthiness test cannot tell a
zero `ttft` from an unset one.) -/
theorem claim6_ttft_set_once_frozen (startTime : ℚ) (pre post : List TimedEvent)
    (e : TimedEvent) (txt : String)
    (hpre : ∀ ev ∈ pre, ev.event.contentBlockDelta = none)
    (he : e.event.contentBlockDelta = some txt)
    (ht : e.time - startTime ≠ 0) :
    (runLoop startTime (pre ++ e :: post) (initState startTime)).ttft
      = e.time - startTime := by
  rw [runLoop_append, runLoop_cons]
  have h0 : (runLoop startTime pre (initState startTime)).ttft = 0 := by
    rw [runLoop_ttft_noDelta startTime pre _ hpre]
    rfl
  have hset := processEvent_ttft_sets startTime
    (runLoop startTime pre (initState startTime)) e txt he h0
  rw [runLoop_ttft_ne startTime post _ (by rw [hset]; exact ht), hset]

/-- Witness for C6 (amended): a first delta at elapsed time 1/10 followed by a
later delta leaves `ttft = 1/10 - 0`. -/
theorem claim6_ttft_set_once_frozen_witness :
    (runLoop 0 ([] ++ ⟨1/10, deltaEvent "x"⟩ :: [⟨3/10, deltaEvent "y"⟩]) (initState 0)).ttft
      = (1 : ℚ)/10 - 0 :=
  claim6_ttft_set_once_frozen 0 [] [⟨3/10, deltaEvent "y"⟩] ⟨1/10, deltaEvent "x"⟩ "x"
    (by simp) rfl (by simp)

/-- C5: for a non-streaming invocation whose build step selected the blocking
path, with a response reporting `outputTokens = 50` and elapsed wall time
`t > 0`, the returned throughput is exactly `50 / t`, the inter-arrival gap
list is empty, and the time-to-first-token is zero. -/
theorem claim5_nonstream_throughput (rc : RequestConfig) (api : ApiInputs)
    (rcAfter : RequestConfig) (hb : buildRequest rc = (Except.ok (api, false), rcAfter))
    (t : ℚ) (ht : 0 < t) (rRole gText sReason mData : String) (inT totT : Nat) :
    llm_request rc 0 t [] false
        (some { role := rRole, text := gText, stopReason := sReason
                usage := { inputTokens := some inT, outputTokens := some 50, totalTokens := some totT }
                metricsData := mData })
      = Except.ok
          ({ error_code := none, error_msg := "", inter_token_lat := 0, ttft := 0,
             e2e_lat := t, req_output_throughput := 50 / t,
             num_total_tokens := totT, num_output_tokens := 50, num_input_tokens := inT },
           gText, rcAfter) ∧
    (runConverseTry 0 t
        (some { role := rRole, text := gText, stopReason := sReason
                usage := { inputTokens := some inT, outputTokens := some 50, totalTokens := some totT }
                metricsData := mData })).loop.time_to_next_token = [] := by
  have hne : t - 0 ≠ 0 := by rw [sub_zero]; exact ht.ne'
  constructor
  · unfold llm_request
    rw [hb]
    simp only [Bool.false_eq_true, if_false]
    unfold runConverseTry postLoop initState finishMetrics
    simp [hne, ht.ne', caught_error_msg, caught_error_code, sub_zero]
  · unfold runConverseTry
    rw [postLoop_loop]

end Bedrock

namespace Bedrock

/-- A blocking response reporting 50 output tokens. -/
def respFifty : BlockingResponse :=
  { role := "assistant", text := "hi", stopReason := "end_turn"
    usage := { inputTokens := some 7, outputTokens := some 50, totalTokens := some 57 }
    metricsData := "" }

/-- Witness for C5 at `t = 2`. -/
theorem claim5_nonstream_throughput_witness :
    llm_request rcPlain 0 2 [] false (some respFifty)
      = Except.ok
          ({ error_code := none, error_msg := "", inter_token_lat := 0, ttft := 0,
             e2e_lat := 2, req_output_throughput := 50 / 2,
             num_total_tokens := 57, num_output_tokens := 50, num_input_tokens := 7 },
           "hi", rcPlain) ∧
    (runConverseTry 0 2 (some respFifty)).loop.time_to_next_token = [] :=
  claim5_nonstream_throughput rcPlain apiPlain rcPlain rfl 2 (by decide) "assistant" "hi"
    "end_turn" "" 7 57

/-- C8: running the Request Builder twice on the same RequestConfig object
(whose `sampling_params` the first run mutated in place) yields identical call
arguments both times: when the first run succeeds with arguments `api`, the
second run succeeds with exactly `api` and performs no further mutation. -/
theorem claim8_builder_idempotent (rc : RequestConfig) (api : ApiInputs) (s : Bool)
    (rc' : RequestConfig) (h : buildRequest rc = (Except.ok (api, s), rc')) :
    buildRequest rc' = (Except.ok (api, false), rc') := by
  unfold buildRequest at h
  dsimp only at h
  rcases hm : mkApiInputs rc.model rc.prompt (normalizeSampling rc.sampling_params).1
      rc.additional_request_body with e | a <;> rw [hm] at h
  · simp at h
  · simp only [Prod.mk.injEq, Except.ok.injEq] at h
    obtain ⟨⟨ha, hs⟩, hrc⟩ := h
    subst ha
    subst hrc
    unfold buildRequest
    dsimp only
    rw [normalizeSampling_normalized rc.sampling_params]
    dsimp only
    rw [hm]

/-- The request whose sampling parameters carry both `max_tokens` and
`stream`. -/
def rcBoth : RequestConfig :=
  { prompt := "p", prompt_len := 1, model := "m"
    sampling_params := [("max_tokens", PyVal.vInt 100), ("stream", PyVal.vBool true)]
    additional_request_body := none }

/-- `rcBoth` after the builder's in-place mutation. -/
def rcBothAfter : RequestConfig :=
  { prompt := "p", prompt_len := 1, model := "m"
    sampling_params := [("maxTokens", PyVal.vInt 100)]
    additional_request_body := none }

/-- The call arguments built from `rcBoth`. -/
def apiBoth : ApiInputs :=
  { modelId := "m", messages := [("user", "p")]
    inferenceConfig := some [("maxTokens", PyVal.vInt 100)]
    system := none, additionalModelRequestFields := none
    additionalModelResponseFieldPaths := none, toolConfig := none }

/-- Witness for C8: the first run on `rcBoth` renames `max_tokens` and removes
`stream`; the second run reproduces the same call arguments. -/
theorem claim8_builder_idempotent_witness :
    buildRequest rcBothAfter = (Except.ok (apiBoth, false), rcBothAfter) :=
  claim8_builder_idempotent rcBoth apiBoth true rcBothAfter rfl

/-- C9: for a streaming invocation that returns its triple, the returned
generated text is the concatenation, in arrival order, of the texts of all
ContentDelta events the loop consumed — for an interrupted stream, those
delivered before the failure. -/
theorem claim9_text_is_delta_concat (rc : RequestConfig) (api : ApiInputs)
    (rcAfter : RequestConfig) (hb : buildRequest rc = (Except.ok (api, true), rcAfter))
    (startTime endTime : ℚ) (events : List TimedEvent) (interrupted : Bool)
    (resp : Option BlockingResponse) (bm : BenchmarkMetrics) (g : String)
    (rcOut : RequestConfig)
    (h : llm_request rc startTime endTime events interrupted resp = Except.ok (bm, g, rcOut)) :
    g = concatTexts (deltaTexts events) := by
  unfold llm_request at h
  rw [hb] at h
  simp only [if_true] at h
  have hg := finishMetrics_text _ _ _ _ _ h
  rw [hg, runStreamTry_loop, runLoop_generated_text]
  exact (String.empty_append _).symm

/-- Witness for C9 on `eventsTimed`: the returned text "abc" is the
concatenation of the three delta texts. -/
theorem claim9_text_is_delta_concat_witness :
    "abc" = concatTexts (deltaTexts eventsTimed) :=
  claim9_text_is_delta_concat rcStream apiPlain rcStreamAfter rfl 0 (1/2) eventsTimed false
    none bmTimed "abc" rcStreamAfter llm_request_eventsTimed_eval

/-- C10: the event loop's four key tests are independent `if` statements, not
mutually exclusive branches: an event carrying both a `contentBlockDelta` and a
`messageStop` has both applied in the same iteration — the stop reason is
recorded, the delta's text is appended, and one inter-arrival gap is timed. -/
theorem claim10_multikey_event (startTime : ℚ) (s : LoopState) (e : TimedEvent)
    (txt reason : String) (hd : e.event.contentBlockDelta = some txt)
    (hs : e.event.messageStop = some reason) :
    (processEvent startTime s e).message_stop = reason ∧
    (processEvent startTime s e).generated_text = s.generated_text ++ txt ∧
    (processEvent startTime s e).time_to_next_token.length
      = s.time_to_next_token.length + 1 :=
  ⟨processEvent_stop_sets startTime s e reason hs,
   processEvent_generated_text_some startTime s e txt hd,
   processEvent_gaps_len_some startTime s e txt hd⟩

/-- An event carrying both a content delta and a stop reason. -/
def bothKeysEvent : TimedEvent :=
  ⟨1/2, { messageStart := none, contentBlockDelta := some "hi"
          messageStop := some "end_turn", metadata := none }⟩

/-- Witness for C10 on `bothKeysEvent` from the initial loop state. -/
theorem claim10_multikey_event_witness :
    (processEvent 0 (initState 0) bothKeysEvent).message_stop = "end_turn" ∧
    (processEvent 0 (initState 0) bothKeysEvent).generated_text
      = (initState 0).generated_text ++ "hi" ∧
    (processEvent 0 (initState 0) bothKeysEvent).time_to_next_token.length
      = (initState 0).time_to_next_token.length + 1 :=
  claim10_multikey_event 0 (initState 0) bothKeysEvent "hi" "end_turn" rfl rfl

end Bedrock
